import Mathlib

/-!
Shallow embedding of the tool-invocation gateway in `src/agents/tool_adapter.py`
(Primarch Tool Adapter SDK).  Python dictionaries are modelled as association
lists (`List (String × _)`) preserving insertion order, matching CPython dict
iteration order; `dict.get(k, d)` becomes `(List.lookup k).getD d`.  Input
values and metadata values are modelled as strings, the only way the adapter
ever inspects them.  Wall-clock timing (`start_time`, `execution_time_ms`) and
the async scheduler are not modelled; whether `asyncio.wait_for` raised
`TimeoutError` is an explicit boolean parameter `timed_out` of `execute_tool`,
and the side effects on the Prometheus metrics (gauge inc/dec, counter inc,
histogram observe) together with the internal calls are reified as an ordered
event trace returned alongside the result.
-/

namespace ToolAdapterModel

/-- `class ToolExecutionStatus(Enum)` — the closed five-member status set. -/
inductive ToolExecutionStatus where
  | success
  | failure
  | timeout
  | validation_error
  | permission_denied
deriving DecidableEq, Repr

/-- The `.value` string of each enum member, as declared in the Python enum. -/
def ToolExecutionStatus.value : ToolExecutionStatus → String
  | .success => "success"
  | .failure => "failure"
  | .timeout => "timeout"
  | .validation_error => "validation_error"
  | .permission_denied => "permission_denied"

/-- `@dataclass ToolContext` — per-call context.  Defaults mirror the Python
field defaults (`permission_level = "user"`, `max_execution_time = 30`). -/
structure ToolContext where
  tenant_id : String
  session_id : String
  user_id : Option String := none
  agent_id : Option String := none
  permission_level : String := "user"
  max_execution_time : Nat := 30
  metadata : List (String × String) := []
deriving DecidableEq, Repr

/-- One registry entry (a value of `self.tool_registry`).  Each Python dict
key that the adapter reads with `.get` is an `Option` field here, so that the
presence/absence distinction and the `.get` default are both faithful. -/
structure ToolSpec where
  type? : Option String := none
  description? : Option String := none
  parameters? : Option (List (String × String)) := none
  required_params? : Option (List String) := none
  required_permission? : Option String := none
deriving DecidableEq, Repr

/-- `self.tool_registry` — insertion-ordered mapping from tool name to spec. -/
abbrev Registry := List (String × ToolSpec)

/-- The raw input bag `inputs : Dict[str, Any]`, values as strings. -/
abbrev Inputs := List (String × String)

/-- Data returned by `_execute_tool_impl`, one constructor per recognized tool
type.  Constant payload fields that never vary with the inputs (the canned
search result list, the ASR transcript/confidence/language dict, the TTS
audio dict) are folded into the constructor; the input-dependent parts
(`inputs.get('query', '')`, `inputs.get('message', ...)`) are carried. -/
inductive ToolData where
  | webSearch (query : String)
  | asr
  | tts
  | echo (message : String)
deriving DecidableEq, Repr

/-- `@dataclass ToolResult`.  `execution_time_ms` and `token_usage` are not
modelled (wall-clock time is outside the embedding; `token_usage` is never
written by the adapter). -/
structure ToolResult where
  status : ToolExecutionStatus
  data : Option ToolData := none
  error : Option String := none
  metadata : List (String × String) := []
deriving DecidableEq, Repr

/-- `permission_levels = {'guest': 0, 'user': 1, 'admin': 2}` in
`check_permissions`. -/
def permission_levels : List (String × Nat) :=
  [("guest", 0), ("user", 1), ("admin", 2)]

/-- `ToolAdapter.validate_tool_input` (tool_adapter.py lines 107-119):
unknown tool → not-found error; otherwise the first required parameter (in
declaration order) missing from the input bag is reported. -/
def validate_tool_input (registry : Registry) (tool_name : String)
    (inputs : Inputs) : Bool × Option String :=
  match registry.lookup tool_name with
  | none => (false, some ("Tool \x27" ++ tool_name ++ "\x27 not found in registry"))
  | some tool_spec =>
    match (tool_spec.required_params?.getD []).find?
        (fun p => (inputs.lookup p).isNone) with
    | some p => (false, some ("Missing required parameter: " ++ p))
    | none => (true, none)

/-- `ToolAdapter.check_permissions` (tool_adapter.py lines 121-133).  Note the
asymmetric defaults in the source: the caller's level falls back to rank 0
(`permission_levels.get(context.permission_level, 0)`) while the tool's
required level falls back to rank 1
(`permission_levels.get(required_permission, 1)`). -/
def check_permissions (registry : Registry) (tool_name : String)
    (context : ToolContext) : Bool :=
  match registry.lookup tool_name with
  | none => false
  | some tool_spec =>
    let required_permission := tool_spec.required_permission?.getD "user"
    decide ((permission_levels.lookup context.permission_level).getD 0 ≥
      (permission_levels.lookup required_permission).getD 1)

/-- `ToolAdapter._execute_tool_impl` (tool_adapter.py lines 211-257): dispatch
on the spec's declared `type` (default `'unknown'`).  A raised exception is an
`Except.error` carrying `str(e)`: `NotImplementedError` for an unrecognized
type, and (unreachable from `execute_tool`, which validates first) the
`KeyError` rendering for an absent tool. -/
def execute_tool_impl (registry : Registry) (tool_name : String)
    (inputs : Inputs) : Except String ToolData :=
  match registry.lookup tool_name with
  | none => .error ("\x27" ++ tool_name ++ "\x27")
  | some tool_spec =>
    let tool_type := tool_spec.type?.getD "unknown"
    if tool_type = "web_search" then
      .ok (.webSearch ((inputs.lookup "query").getD ""))
    else if tool_type = "asr" then
      .ok .asr
    else if tool_type = "tts" then
      .ok .tts
    else if tool_type = "echo" then
      .ok (.echo ((inputs.lookup "message").getD "Hello from Primarch!"))
    else
      .error ("Tool type \x27" ++ tool_type ++ "\x27 not implemented")

/-- Observable events of one `execute_tool` call, in program order: Prometheus
gauge inc/dec (`self.active_tools`), the call into `validate_tool_input`, the
start of the awaited `_execute_tool_impl` coroutine, and the two emissions of
`_record_execution` (counter inc and histogram observe). -/
inductive Ev where
  | gaugeInc (tool_name tenant_id : String)
  | gaugeDec (tool_name tenant_id : String)
  | validateCall (tool_name : String)
  | implInvoked (tool_name : String)
  | counterInc (tool_name status tenant_id : String)
  | latencyObs (tool_name tenant_id : String)
deriving DecidableEq, Repr

def Ev.isGaugeInc : Ev → Bool
  | .gaugeInc _ _ => true
  | _ => false

def Ev.isGaugeDec : Ev → Bool
  | .gaugeDec _ _ => true
  | _ => false

def Ev.isCounterInc : Ev → Bool
  | .counterInc _ _ _ => true
  | _ => false

def Ev.isLatencyObs : Ev → Bool
  | .latencyObs _ _ => true
  | _ => false

/-- `ToolAdapter._record_execution` (tool_adapter.py lines 259-270): one
counter increment tagged (tool_name, status.value, tenant_id), then one
latency observation tagged (tool_name, tenant_id). -/
def record_execution (tool_name : String) (context : ToolContext)
    (result : ToolResult) : List Ev :=
  [.counterInc tool_name result.status.value context.tenant_id,
   .latencyObs tool_name context.tenant_id]

/-- `ToolAdapter.execute_tool` (tool_adapter.py lines 135-209), with the event
trace made explicit.  Python's `try/finally` semantics fix the event order:
on the validation-rejection and permission-rejection paths the `return`
inside the `try` runs `_record_execution` first and then the `finally`
gauge decrement; on the success/timeout/failure paths control falls out of
the `try`, so the `finally` decrement runs before the `_record_execution`
call on line 208.  `timed_out` states whether `asyncio.wait_for` raised
`TimeoutError` around the awaited impl (which has already been started). -/
def execute_tool (registry : Registry) (tool_name : String) (inputs : Inputs)
    (context : ToolContext) (timed_out : Bool) : ToolResult × List Ev :=
  let incEv := Ev.gaugeInc tool_name context.tenant_id
  let decEv := Ev.gaugeDec tool_name context.tenant_id
  match validate_tool_input registry tool_name inputs with
  | (false, validation_error) =>
    let result : ToolResult :=
      { status := .validation_error, error := validation_error }
    (result, [incEv, .validateCall tool_name] ++
      record_execution tool_name context result ++ [decEv])
  | (true, _) =>
    if check_permissions registry tool_name context then
      let result : ToolResult :=
        if timed_out then
          { status := .timeout,
            error := some ("Tool execution timed out after " ++
              toString context.max_execution_time ++ "s") }
        else
          match execute_tool_impl registry tool_name inputs with
          | .ok d =>
            { status := .success, data := some d,
              metadata := [("tool_name", tool_name),
                           ("session_id", context.session_id)] }
          | .error e => { status := .failure, error := some e }
      (result, [incEv, .validateCall tool_name, .implInvoked tool_name,
        decEv] ++ record_execution tool_name context result)
    else
      let result : ToolResult :=
        { status := .permission_denied,
          error := some ("Insufficient permissions for tool \x27" ++
            tool_name ++ "\x27") }
      (result, [incEv, .validateCall tool_name] ++
        record_execution tool_name context result ++ [decEv])

/-- One entry of the list built by `get_available_tools`. -/
structure ToolSummary where
  name : String
  description : String
  parameters : List (String × String)
  type : String
deriving DecidableEq, Repr

/-- `ToolAdapter.get_available_tools` (tool_adapter.py lines 272-285): filter
the registry, in iteration order, through `check_permissions`. -/
def get_available_tools (registry : Registry) (context : ToolContext) :
    List ToolSummary :=
  registry.filterMap (fun entry =>
    if check_permissions registry entry.1 context then
      some { name := entry.1,
             description := entry.2.description?.getD "",
             parameters := (entry.2.parameters?.getD []),
             type := entry.2.type?.getD "unknown" }
    else none)

/-- The Authorizer exactly as claim C1 words it (spec §4.3): "An unrecognized
tier string on either side defaults to rank 1 (`user`)" — i.e. both `.get`
fallbacks are 1.  Kept solely to compare against `check_permissions`, whose
caller-side fallback in the source is 0. -/
def check_permissions_claimed (registry : Registry) (tool_name : String)
    (context : ToolContext) : Bool :=
  match registry.lookup tool_name with
  | none => false
  | some tool_spec =>
    let required_permission := tool_spec.required_permission?.getD "user"
    decide ((permission_levels.lookup context.permission_level).getD 1 ≥
      (permission_levels.lookup required_permission).getD 1)

/-! ### Concrete fixtures used by the witnesses and counterexamples below -/

def specUserOnly : ToolSpec := { required_permission? := some "user" }

def regUserOnly : Registry := [("t", specUserOnly)]

def specAdminOnly : ToolSpec := { required_permission? := some "admin" }

def regAdminOnly : Registry := [("t", specAdminOnly)]

def specAdminGate : ToolSpec :=
  { required_params? := some ["x"], required_permission? := some "admin" }

def regAdminGate : Registry := [("t", specAdminGate)]

def specEcho : ToolSpec :=
  { type? := some "echo", required_params? := some [],
    required_permission? := some "guest" }

def regEcho : Registry := [("echo", specEcho)]

def specSearch : ToolSpec :=
  { required_params? := some ["query"], required_permission? := some "user" }

def regSearch : Registry := [("search", specSearch)]

def specMystery : ToolSpec := { type? := some "quantum" }

def regMystery : Registry := [("mystery", specMystery)]

def ctxGuest : ToolContext :=
  { tenant_id := "t1", session_id := "s1", permission_level := "guest" }

def ctxUser : ToolContext :=
  { tenant_id := "t1", session_id := "s1", permission_level := "user" }

def ctxSuper : ToolContext :=
  { tenant_id := "t1", session_id := "s1", permission_level := "superuser" }

/-! ### Claim C1 -/

/-- Claim C1, counterexample.  The claim says an unrecognized tier string on
either side of `check_permissions` defaults to rank 1 (`user`).  On the
claim's reading (`check_permissions_claimed`) a caller with the unrecognized
tier `"superuser"` would be authorized for a tool requiring tier `"user"`
(rank 1 ≥ 1), but the source's `check_permissions` denies it: the caller
side of the comparison defaults to rank 0, not 1. -/
theorem c1_counterexample :
    check_permissions_claimed regUserOnly "t" ctxSuper = true ∧
    check_permissions regUserOnly "t" ctxSuper = false := by
  decide

/-- Claim C1, amended: an unrecognized tier string on the caller's side
defaults to rank 0 (`guest`); only an unrecognized required tier on the
tool's side defaults to rank 1 (`user`).  In particular a caller with the
unrecognized tier `"superuser"` has rank 0 and is denied a tool registered
with `required_permission = "admin"` (rank 2). -/
theorem c1_amended :
    (∀ (registry : Registry) (tool_name : String) (context : ToolContext)
        (tool_spec : ToolSpec),
      registry.lookup tool_name = some tool_spec →
      permission_levels.lookup context.permission_level = none →
      check_permissions registry tool_name context =
        decide (0 ≥ (permission_levels.lookup
          (tool_spec.required_permission?.getD "user")).getD 1)) ∧
    (∀ (registry : Registry) (tool_name : String) (context : ToolContext)
        (tool_spec : ToolSpec),
      registry.lookup tool_name = some tool_spec →
      permission_levels.lookup (tool_spec.required_permission?.getD "user") = none →
      check_permissions registry tool_name context =
        decide ((permission_levels.lookup context.permission_level).getD 0 ≥ 1)) ∧
    check_permissions regAdminOnly "t" ctxSuper = false := by
  refine ⟨?_, ?_, by decide⟩
  · intro registry tool_name context tool_spec hreg hcaller
    simp [check_permissions, hreg, hcaller]
  · intro registry tool_name context tool_spec hreg hreq
    simp [check_permissions, hreg, hreq]

/-- Claim C1, witness for the amended theorem at a concrete input: the
unrecognized caller tier `"superuser"` gets rank 0 against the
`"user"`-tier tool `regUserOnly`. -/
theorem c1_amended_witness :
    check_permissions regUserOnly "t" ctxSuper =
      decide (0 ≥ (permission_levels.lookup
        (specUserOnly.required_permission?.getD "user")).getD 1) :=
  c1_amended.1 regUserOnly "t" ctxSuper specUserOnly (by decide) (by decide)

/-! ### Claim C7 -/

/-- Claim C7: with the registry holding the `echo` tool (type `echo`, no
required parameters, required permission `guest`) and a guest caller,
`execute_tool "echo" {message: "hi"}` succeeds with data `{echo: "hi"}` and
metadata containing the tool name and the session id. -/
theorem c7_echo_scenario :
    (execute_tool regEcho "echo" [("message", "hi")] ctxGuest false).1.status =
      ToolExecutionStatus.success ∧
    (execute_tool regEcho "echo" [("message", "hi")] ctxGuest false).1.data =
      some (ToolData.echo "hi") ∧
    ("tool_name", "echo") ∈
      (execute_tool regEcho "echo" [("message", "hi")] ctxGuest false).1.metadata ∧
    ("session_id", ctxGuest.session_id) ∈
      (execute_tool regEcho "echo" [("message", "hi")] ctxGuest false).1.metadata := by
  decide

/-! ### Claim C2 -/

/-- Claim C2, counterexample.  On the success exit path the gauge decrement
(`finally` block, tool_adapter.py lines 202-206) runs before the outcome
recording (`_record_execution`, line 208, which sits after the `try`
statement): in the event trace of a successful echo call the decrement is at
index 3 and the counter increment at index 4, so the decrement does not
follow outcome recording on every exit path as the claim states. -/
theorem c2_counterexample :
    (execute_tool regEcho "echo" [("message", "hi")] ctxGuest false).1.status =
      ToolExecutionStatus.success ∧
    (execute_tool regEcho "echo" [("message", "hi")] ctxGuest false).2.findIdx
        Ev.isGaugeDec <
      (execute_tool regEcho "echo" [("message", "hi")] ctxGuest false).2.findIdx
        Ev.isCounterInc := by
  decide

/-- Claim C2, amended: in every call the gauge increment is the first event
and precedes the validation call, and the gauge is decremented exactly once;
on the validation-rejection and permission-rejection exit paths the decrement
follows outcome recording (the `return` inside the `try` runs the `finally`
block last), while on the success, timeout, failure and internal-error exit
paths the decrement precedes outcome recording (the `finally` block runs
before the `_record_execution` call placed after the `try`). -/
theorem c2_amended (registry : Registry) (tool_name : String) (inputs : Inputs)
    (context : ToolContext) (timed_out : Bool) :
    (execute_tool registry tool_name inputs context timed_out).2[0]? =
      some (Ev.gaugeInc tool_name context.tenant_id) ∧
    (execute_tool registry tool_name inputs context timed_out).2[1]? =
      some (Ev.validateCall tool_name) ∧
    (execute_tool registry tool_name inputs context timed_out).2.countP
      Ev.isGaugeDec = 1 ∧
    (if (execute_tool registry tool_name inputs context timed_out).1.status =
          ToolExecutionStatus.validation_error ∨
        (execute_tool registry tool_name inputs context timed_out).1.status =
          ToolExecutionStatus.permission_denied then
      (execute_tool registry tool_name inputs context timed_out).2 =
        [Ev.gaugeInc tool_name context.tenant_id, Ev.validateCall tool_name] ++
          record_execution tool_name context
            (execute_tool registry tool_name inputs context timed_out).1 ++
          [Ev.gaugeDec tool_name context.tenant_id]
    else
      (execute_tool registry tool_name inputs context timed_out).2 =
        [Ev.gaugeInc tool_name context.tenant_id, Ev.validateCall tool_name,
          Ev.implInvoked tool_name, Ev.gaugeDec tool_name context.tenant_id] ++
          record_execution tool_name context
            (execute_tool registry tool_name inputs context timed_out).1) := by
  rcases hval : validate_tool_input registry tool_name inputs with ⟨b, err⟩
  cases b
  · simp [execute_tool, hval, record_execution, List.countP_cons, Ev.isGaugeDec]
  · by_cases hp : check_permissions registry tool_name context
    · cases timed_out
      · rcases himpl : execute_tool_impl registry tool_name inputs with e | d <;>
          simp [execute_tool, hval, hp, himpl, record_execution,
            List.countP_cons, Ev.isGaugeDec]
      · simp [execute_tool, hval, hp, record_execution, List.countP_cons,
          Ev.isGaugeDec]
    · simp [execute_tool, hval, hp, record_execution, List.countP_cons,
        Ev.isGaugeDec]

/-! ### Claim C6 -/

/-- Claim C6: every call to `execute_tool`, on every exit path, emits exactly
one execution-count event — tagged with the tool name, the produced status
string and the tenant — and exactly one latency observation tagged with the
tool name and the tenant; and the gauge increments and decrements balance, so
the in-flight gauge returns to its pre-call value. -/
theorem c6_metrics_once (registry : Registry) (tool_name : String)
    (inputs : Inputs) (context : ToolContext) (timed_out : Bool) :
    (execute_tool registry tool_name inputs context timed_out).2.countP
      Ev.isCounterInc = 1 ∧
    Ev.counterInc tool_name
        (execute_tool registry tool_name inputs context timed_out).1.status.value
        context.tenant_id ∈
      (execute_tool registry tool_name inputs context timed_out).2 ∧
    (execute_tool registry tool_name inputs context timed_out).2.countP
      Ev.isLatencyObs = 1 ∧
    Ev.latencyObs tool_name context.tenant_id ∈
      (execute_tool registry tool_name inputs context timed_out).2 ∧
    (execute_tool registry tool_name inputs context timed_out).2.countP
        Ev.isGaugeInc =
      (execute_tool registry tool_name inputs context timed_out).2.countP
        Ev.isGaugeDec := by
  rcases hval : validate_tool_input registry tool_name inputs with ⟨b, err⟩
  cases b
  · simp [execute_tool, hval, record_execution, List.countP_cons,
      Ev.isCounterInc, Ev.isLatencyObs, Ev.isGaugeInc, Ev.isGaugeDec]
  · by_cases hp : check_permissions registry tool_name context
    · cases timed_out
      · rcases himpl : execute_tool_impl registry tool_name inputs with e | d <;>
          simp [execute_tool, hval, hp, himpl, record_execution,
            List.countP_cons, Ev.isCounterInc, Ev.isLatencyObs, Ev.isGaugeInc,
            Ev.isGaugeDec]
      · simp [execute_tool, hval, hp, record_execution, List.countP_cons,
          Ev.isCounterInc, Ev.isLatencyObs, Ev.isGaugeInc, Ev.isGaugeDec]
    · simp [execute_tool, hval, hp, record_execution, List.countP_cons,
        Ev.isCounterInc, Ev.isLatencyObs, Ev.isGaugeInc, Ev.isGaugeDec]

/-! ### Claim C3 -/

/-- Claim C3: for a tool present in the registry and an input bag missing at
least one required parameter — `p` being the first parameter of the
declaration-ordered required list absent from the inputs — `execute_tool`
returns `validation_error`, the error message names exactly that first
missing parameter, and the execution capability is never invoked. -/
theorem c3_validation_rejects (registry : Registry) (tool_name : String)
    (inputs : Inputs) (context : ToolContext) (timed_out : Bool)
    (tool_spec : ToolSpec) (p : String)
    (hreg : registry.lookup tool_name = some tool_spec)
    (hfind : (tool_spec.required_params?.getD []).find?
      (fun q => (inputs.lookup q).isNone) = some p) :
    p ∈ tool_spec.required_params?.getD [] ∧
    inputs.lookup p = none ∧
    (execute_tool registry tool_name inputs context timed_out).1.status =
      ToolExecutionStatus.validation_error ∧
    (execute_tool registry tool_name inputs context timed_out).1.error =
      some ("Missing required parameter: " ++ p) ∧
    Ev.implInvoked tool_name ∉
      (execute_tool registry tool_name inputs context timed_out).2 := by
  have hval : validate_tool_input registry tool_name inputs =
      (false, some ("Missing required parameter: " ++ p)) := by
    simp [validate_tool_input, hreg, hfind]
  refine ⟨List.mem_of_find?_eq_some hfind, ?_, ?_⟩
  · have := List.find?_some hfind
    simpa [Option.isNone_iff_eq_none] using this
  · simp [execute_tool, hval, record_execution]

/-- Claim C3, witness: the `search` tool requires `query`; calling it with an
empty input bag is rejected as `validation_error` naming `query`, without
invoking the capability. -/
theorem c3_validation_rejects_witness :
    "query" ∈ specSearch.required_params?.getD [] ∧
    ([] : Inputs).lookup "query" = none ∧
    (execute_tool regSearch "search" [] ctxUser false).1.status =
      ToolExecutionStatus.validation_error ∧
    (execute_tool regSearch "search" [] ctxUser false).1.error =
      some ("Missing required parameter: " ++ "query") ∧
    Ev.implInvoked "search" ∉ (execute_tool regSearch "search" [] ctxUser false).2 :=
  c3_validation_rejects regSearch "search" [] ctxUser false specSearch "query"
    (by decide) (by decide)

/-! ### Claim C4 -/

/-- Claim C4, counterexample.  A guest caller (rank 0) is strictly below the
`admin` requirement (rank 2) of the tool `t` in `regAdminGate`, yet
`execute_tool` with an input bag missing the required parameter `x` returns
`validation_error`, not `permission_denied`: validation runs before the
permission check, so the claim's unconditional "returns permission_denied"
fails. -/
theorem c4_counterexample :
    (permission_levels.lookup ctxGuest.permission_level).getD 0 <
      (permission_levels.lookup
        (specAdminGate.required_permission?.getD "user")).getD 1 ∧
    (execute_tool regAdminGate "t" [] ctxGuest false).1.status =
      ToolExecutionStatus.validation_error ∧
    (execute_tool regAdminGate "t" [] ctxGuest false).1.status ≠
      ToolExecutionStatus.permission_denied := by
  decide

/-- Claim C4, amended: authorization succeeds iff the caller's tier rank is ≥
the tool's required tier rank (for recognized tiers, under
guest 0 < user 1 < admin 2); a tool absent from the registry is always
unauthorized; and a caller whose rank is strictly below the tool's required
rank never triggers the execution capability — `execute_tool` returns
`permission_denied` whenever the inputs pass validation (with invalid inputs
it returns `validation_error` instead, since validation precedes the
permission check). -/
theorem c4_amended :
    (∀ (registry : Registry) (tool_name : String) (context : ToolContext),
      registry.lookup tool_name = none →
      check_permissions registry tool_name context = false) ∧
    (∀ (registry : Registry) (tool_name : String) (context : ToolContext)
        (tool_spec : ToolSpec) (rc rr : Nat),
      registry.lookup tool_name = some tool_spec →
      permission_levels.lookup context.permission_level = some rc →
      permission_levels.lookup (tool_spec.required_permission?.getD "user") =
        some rr →
      (check_permissions registry tool_name context = true ↔ rc ≥ rr)) ∧
    (∀ (registry : Registry) (tool_name : String) (inputs : Inputs)
        (context : ToolContext) (timed_out : Bool) (tool_spec : ToolSpec),
      registry.lookup tool_name = some tool_spec →
      (permission_levels.lookup context.permission_level).getD 0 <
        (permission_levels.lookup
          (tool_spec.required_permission?.getD "user")).getD 1 →
      Ev.implInvoked tool_name ∉
        (execute_tool registry tool_name inputs context timed_out).2 ∧
      ((validate_tool_input registry tool_name inputs).1 = true →
        (execute_tool registry tool_name inputs context timed_out).1.status =
          ToolExecutionStatus.permission_denied)) := by
  refine ⟨?_, ?_, ?_⟩
  · intro registry tool_name context hreg
    simp [check_permissions, hreg]
  · intro registry tool_name context tool_spec rc rr hreg hc hr
    simp [check_permissions, hreg, hc, hr]
  · intro registry tool_name inputs context timed_out tool_spec hreg hlt
    have hp : check_permissions registry tool_name context = false := by
      simp only [check_permissions, hreg]
      simpa [decide_eq_false_iff_not] using Nat.not_le_of_lt hlt
    rcases hval : validate_tool_input registry tool_name inputs with ⟨b, err⟩
    cases b
    · constructor
      · simp [execute_tool, hval, record_execution]
      · intro hb
        exact absurd hb (by simp)
    · constructor
      · simp [execute_tool, hval, hp, record_execution]
      · intro _
        simp [execute_tool, hval, hp]

/-- Claim C4, witness for the amended theorem: a guest caller (rank 0) against
the `search` tool requiring `user` (rank 1), with inputs that pass
validation, is denied with `permission_denied` and the capability is never
invoked. -/
theorem c4_amended_witness :
    Ev.implInvoked "search" ∉
      (execute_tool regSearch "search" [("query", "q")] ctxGuest false).2 ∧
    (execute_tool regSearch "search" [("query", "q")] ctxGuest false).1.status =
      ToolExecutionStatus.permission_denied := by
  have h := c4_amended.2.2 regSearch "search" [("query", "q")] ctxGuest false
    specSearch (by decide) (by decide)
  exact ⟨h.1, h.2 (by decide)⟩

/-! ### Claim C5 -/

/-- Claim C5: `execute_tool` is total and its result status always lies in
the closed five-member enumeration — no other error kind escapes to the
caller — and an error raised by the dispatched implementation (the
`except Exception` arm) is mapped to status `failure` with the underlying
error message preserved verbatim in the result. -/
theorem c5_closed_taxonomy (registry : Registry) (tool_name : String)
    (inputs : Inputs) (context : ToolContext) (timed_out : Bool) :
    ((execute_tool registry tool_name inputs context timed_out).1.status =
        ToolExecutionStatus.success ∨
      (execute_tool registry tool_name inputs context timed_out).1.status =
        ToolExecutionStatus.failure ∨
      (execute_tool registry tool_name inputs context timed_out).1.status =
        ToolExecutionStatus.timeout ∨
      (execute_tool registry tool_name inputs context timed_out).1.status =
        ToolExecutionStatus.validation_error ∨
      (execute_tool registry tool_name inputs context timed_out).1.status =
        ToolExecutionStatus.permission_denied) ∧
    (∀ e : String, timed_out = false →
      (validate_tool_input registry tool_name inputs).1 = true →
      check_permissions registry tool_name context = true →
      execute_tool_impl registry tool_name inputs = .error e →
      (execute_tool registry tool_name inputs context timed_out).1.status =
          ToolExecutionStatus.failure ∧
        (execute_tool registry tool_name inputs context timed_out).1.error =
          some e) := by
  constructor
  · cases h : (execute_tool registry tool_name inputs context timed_out).1.status <;>
      simp
  · intro e ht hb hp himpl
    subst ht
    rcases hval : validate_tool_input registry tool_name inputs with ⟨b, err⟩
    rw [hval] at hb
    simp only at hb
    subst hb
    simp [execute_tool, hval, hp, himpl]

/-- Claim C5, witness: the tool `mystery` has the unrecognized type
`"quantum"`; its implementation raises, and `execute_tool` maps that to
status `failure` carrying the raised message. -/
theorem c5_closed_taxonomy_witness :
    (execute_tool regMystery "mystery" [] ctxUser false).1.status =
        ToolExecutionStatus.failure ∧
      (execute_tool regMystery "mystery" [] ctxUser false).1.error =
        some ("Tool type \x27quantum\x27 not implemented") :=
  (c5_closed_taxonomy regMystery "mystery" [] ctxUser false).2
    ("Tool type \x27quantum\x27 not implemented") rfl (by decide) (by decide)
    rfl

/-! ### Claim C8 -/

/-- Claim C8: a registered tool whose declared type is none of the recognized
types (`web_search`, `asr`, `tts`, `echo`), called with valid inputs by an
authorized caller, yields status `failure` — no crash, no other status —
with an error message saying the type is not implemented.  The run is taken
with `timed_out = false` since the unknown-type branch raises immediately,
before any awaiting. -/
theorem c8_unknown_type_failure (registry : Registry) (tool_name : String)
    (inputs : Inputs) (context : ToolContext) (tool_spec : ToolSpec)
    (hreg : registry.lookup tool_name = some tool_spec)
    (hty : tool_spec.type?.getD "unknown" ∉
      (["web_search", "asr", "tts", "echo"] : List String))
    (hval : (validate_tool_input registry tool_name inputs).1 = true)
    (hperm : check_permissions registry tool_name context = true) :
    (execute_tool registry tool_name inputs context false).1.status =
        ToolExecutionStatus.failure ∧
      (execute_tool registry tool_name inputs context false).1.error =
        some ("Tool type \x27" ++ tool_spec.type?.getD "unknown" ++
          "\x27 not implemented") := by
  simp only [List.mem_cons, List.not_mem_nil, or_false, not_or] at hty
  obtain ⟨h1, h2, h3, h4⟩ := hty
  have himpl : execute_tool_impl registry tool_name inputs =
      .error ("Tool type \x27" ++ tool_spec.type?.getD "unknown" ++
        "\x27 not implemented") := by
    simp [execute_tool_impl, hreg, h1, h2, h3, h4]
  rcases hvalp : validate_tool_input registry tool_name inputs with ⟨b, err⟩
  rw [hvalp] at hval
  simp only at hval
  subst hval
  simp [execute_tool, hvalp, hperm, himpl]

/-- Claim C8, witness: the `mystery` tool of type `"quantum"` fails with the
not-implemented message. -/
theorem c8_unknown_type_failure_witness :
    (execute_tool regMystery "mystery" [] ctxUser false).1.status =
        ToolExecutionStatus.failure ∧
      (execute_tool regMystery "mystery" [] ctxUser false).1.error =
        some ("Tool type \x27" ++ specMystery.type?.getD "unknown" ++
          "\x27 not implemented") :=
  c8_unknown_type_failure regMystery "mystery" [] ctxUser specMystery
    (by decide) (by decide) (by decide) (by decide)

/-! ### Claim C9 -/

/-- A tool name is a key of an association list iff `lookup` finds it. -/
lemma lookup_isSome_iff_mem_keys (l : List (String × ToolSpec)) (name : String) :
    (l.lookup name).isSome ↔ name ∈ l.map Prod.fst := by
  induction l with
  | nil => simp [List.lookup]
  | cons e tl ih =>
    obtain ⟨n, s⟩ := e
    by_cases h : name = n
    · subst h
      simp [List.lookup]
    · have hb : (name == n) = false := by simp [h]
      simp [List.lookup, hb, ih, h]

/-- Membership of a name among the summaries produced by filtering a registry
fragment `l` through `check_permissions` (against the full `registry`). -/
lemma mem_available_names_iff (registry : Registry) (context : ToolContext)
    (l : List (String × ToolSpec)) (name : String) :
    name ∈ (l.filterMap (fun entry =>
        if check_permissions registry entry.1 context then
          some { name := entry.1,
                 description := entry.2.description?.getD "",
                 parameters := (entry.2.parameters?.getD []),
                 type := entry.2.type?.getD "unknown" : ToolSummary }
        else none)).map ToolSummary.name ↔
      (name ∈ l.map Prod.fst ∧
        check_permissions registry name context = true) := by
  induction l with
  | nil => simp
  | cons e tl ih =>
    obtain ⟨n, s⟩ := e
    by_cases hc : check_permissions registry n context = true
    · simp only [List.filterMap_cons, hc, if_pos, List.map_cons, List.mem_cons, ih]
      constructor
      · rintro (rfl | ⟨hm, hk⟩)
        · exact ⟨Or.inl rfl, hc⟩
        · exact ⟨Or.inr hm, hk⟩
      · rintro ⟨rfl | hm, hk⟩
        · exact Or.inl rfl
        · exact Or.inr ⟨hm, hk⟩
    · rw [List.filterMap_cons, if_neg (by simpa using hc)]
      simp only [List.map_cons, List.mem_cons, ih]
      constructor
      · rintro ⟨hm, hk⟩
        exact ⟨Or.inr hm, hk⟩
      · rintro ⟨rfl | hm, hk⟩
        · exact absurd hk hc
        · exact ⟨hm, hk⟩

/-- Claim C9: `get_available_tools` lists a summary for a tool name iff that
name is in the registry and `check_permissions` succeeds for it in the given
context; being a pure function of the registry and the context, its result
is deterministic for a fixed registry and context. -/
theorem c9_available_iff (registry : Registry) (context : ToolContext)
    (name : String) :
    name ∈ (get_available_tools registry context).map ToolSummary.name ↔
      ((registry.lookup name).isSome ∧
        check_permissions registry name context = true) := by
  unfold get_available_tools
  rw [mem_available_names_iff registry context registry name,
    lookup_isSome_iff_mem_keys]

/-! ### Claim C10 -/

/-- Claim C10: permission checking is monotone in the caller's tier.  For two
contexts identical except for the permission level, both levels recognized
tiers with the first ranked at least as high as the second, every tool
authorized for the lower context is authorized for the higher one, and every
summary listed by `get_available_tools` for the lower context is listed for
the higher one. -/
theorem c10_permission_monotone (registry : Registry) (context : ToolContext)
    (l1 l2 : String) (r1 r2 : Nat)
    (h1 : permission_levels.lookup l1 = some r1)
    (h2 : permission_levels.lookup l2 = some r2)
    (hle : r2 ≤ r1) :
    (∀ tool_name,
      check_permissions registry tool_name
        { context with permission_level := l2 } = true →
      check_permissions registry tool_name
        { context with permission_level := l1 } = true) ∧
    (∀ s, s ∈ get_available_tools registry
        { context with permission_level := l2 } →
      s ∈ get_available_tools registry
        { context with permission_level := l1 }) := by
  have hmono : ∀ tool_name,
      check_permissions registry tool_name
        { context with permission_level := l2 } = true →
      check_permissions registry tool_name
        { context with permission_level := l1 } = true := by
    intro t ht
    cases hreg : registry.lookup t with
    | none => simp [check_permissions, hreg] at ht
    | some tool_spec =>
      simp only [check_permissions, hreg, h1, h2, Option.getD_some,
        decide_eq_true_eq] at ht ⊢
      omega
  refine ⟨hmono, ?_⟩
  intro s hs
  unfold get_available_tools at hs ⊢
  rw [List.mem_filterMap] at hs ⊢
  obtain ⟨entry, hmem, hf⟩ := hs
  refine ⟨entry, hmem, ?_⟩
  split at hf
  case isTrue hcond =>
    simpa [hmono entry.1 hcond] using hf
  case isFalse hcond =>
    exact absurd hf (by simp)

/-- Claim C10, witness: the `search` tool (required tier `user`) is available
to a `user`-tier caller, hence by monotonicity also to an `admin`-tier
caller. -/
theorem c10_permission_monotone_witness :
    check_permissions regSearch "search"
      { ctxGuest with permission_level := "admin" } = true :=
  (c10_permission_monotone regSearch ctxGuest "admin" "user" 2 1 (by decide)
    (by decide) (by decide)).1 "search" (by decide)

end ToolAdapterModel
